import Mathlib

/-
Verification of the persistence layer in src/db_controller/database_backend.py
(fleet-management API: vans, stores, authenticating users on PostgreSQL).

Shallow-embedding conventions used throughout this file:
* A database table is a Lean list of rows.  For the generic store/van lookup
  helpers a row is a total function from column names to cell values
  (the source accesses cells as row[column]); for the van-select and
  user-auth operations rows are concrete structures.
* SQL statements are modelled by their semantics over those lists
  (a SELECT ... WHERE c = v is a List.filter, an UPDATE is a List.map,
  a DELETE is a List.filter with the negated condition, an INSERT is an
  append).  The source interpolates values into the SQL text; the model
  uses the semantic equality the interpolated query would test.
* Python exceptions are modelled with Except over the PyExc type below.
* Python truthiness of a lookup result (None falsy, empty string falsy,
  non-empty string truthy) is modelled by py_truthy.
-/

/-- Rows handled by the generic lookup helpers map column names to values,
mirroring the row[column] accesses of the source. -/
def Row : Type := String → String

/-- Result of cursor.fetchall() for the two-filter lookup query built by
exists_data_row (SELECT column FROM table WHERE f1 = v1 AND f2 = v2):
the rows of the table satisfying both equality filters. -/
def pg_fetchall_select (table : List Row) (column_filter1 value1 column_filter2 value2 : String) :
    List Row :=
  table.filter (fun r => r column_filter1 == value1 && r column_filter2 == value2)

/-- Result of cursor.fetchall() for the three-filter lookup query built by
validate_transaction. -/
def pg_fetchall_select3 (table : List Row)
    (column_filter1 value1 column_filter2 value2 column_filter3 value3 : String) : List Row :=
  table.filter (fun r =>
    r column_filter1 == value1 && r column_filter2 == value2 && r column_filter3 == value3)

/-- Loop shared by exists_data_row and validate_transaction (source lines
279-290 and 340-349): row_data starts as None and, for each fetched row
that is not None, is overwritten with that row's selected column. -/
def exists_row_loop_from (init : Option String) (column_name : String)
    (row_exists : List (Option Row)) : Option String :=
  row_exists.foldl
    (fun row_data r_e =>
      match r_e with
      | none => row_data
      | some r => some (r column_name))
    init

/-- Embedding of exists_data_row (source lines 249-301): run the two-filter
lookup, then the overwrite loop starting from None.  fetchall never yields a
None row, hence the map some; the defensive None branch of the source loop is
kept in exists_row_loop_from. -/
def exists_data_row (table : List Row)
    (column_name column_filter1 value1 column_filter2 value2 : String) : Option String :=
  exists_row_loop_from none column_name
    ((pg_fetchall_select table column_filter1 value1 column_filter2 value2).map some)

/-- Embedding of validate_transaction (source lines 304-360): identical to
exists_data_row but with three equality filters. -/
def validate_transaction (table : List Row)
    (column_name column_filter1 value1 column_filter2 value2 column_filter3 value3 : String) :
    Option String :=
  exists_row_loop_from none column_name
    ((pg_fetchall_select3 table column_filter1 value1 column_filter2 value2 column_filter3
        value3).map some)

/-- Statement of the existence check as the claim words it (selected column
value of the FIRST matching row); written for comparison with
exists_data_row, which is translated from the source. -/
def exists_data_row_claim (table : List Row)
    (column_name column_filter1 value1 column_filter2 value2 : String) : Option String :=
  (pg_fetchall_select table column_filter1 value1 column_filter2 value2).head?.map
    (fun r => r column_name)

/-- Python truthiness of the value returned by exists_data_row: None is
falsy, the empty string is falsy, any other string is truthy. -/
def py_truthy (o : Option String) : Bool :=
  match o with
  | none => false
  | some s => !(s == "")

/-- Embedding of StoreModelDb.manage_van_vehicle_data (source lines 383-410):
look up (uuid_van, plates_van), then branch on the Python truthiness of the
result into the update call or the insert call, returning that call's result.
The results of the two branches are abstracted as parameters. -/
def manage_van_vehicle_data {α : Type} (table : List Row) (uuid_van plates_van : String)
    (update_result insert_result : α) : α :=
  if py_truthy (exists_data_row table "uuid_van" "uuid_van" uuid_van "plates_van" plates_van)
  then update_result
  else insert_result

/-- Embedding of the character test used by scrub: k.isalnum().  The model
uses the ASCII letter-or-digit classification; the properties proved about
scrub do not depend on which character class is filtered on. -/
def py_isalnum (c : Char) : Bool := c.isAlphanum

/-- Embedding of scrub (source lines 116-127): join of the characters of the
input that satisfy isalnum, in order. -/
def scrub (input_string : String) : String :=
  String.mk (input_string.toList.filter py_isalnum)

/-- Embedding of format_store_address (source lines 706-715). -/
def format_store_address (street_address external_number_address suburb_address
    zip_postal_code_address city_address country_address : String) : String :=
  street_address ++ " no. " ++ external_number_address ++ ", col. " ++ suburb_address ++
    ", Cp. " ++ zip_postal_code_address ++ ", " ++ city_address ++ ", " ++ country_address

/-- Unfolding of the overwrite loop: over a list of present rows it keeps the
initial accumulator when the list is empty and otherwise ends on the last
row's selected column. -/
theorem exists_row_loop_from_eq (column_name : String) (l : List Row) (init : Option String) :
    exists_row_loop_from init column_name (l.map some)
      = (match l.getLast? with
         | none => init
         | some r => some (r column_name)) := by
  induction l generalizing init with
  | nil => rfl
  | cons r rest ih =>
    cases rest with
    | nil => rfl
    | cons r2 rest2 =>
      have h := ih (some (r column_name))
      simp only [List.map_cons, exists_row_loop_from, List.foldl_cons] at h ⊢
      rw [List.getLast?_cons_cons]
      exact h

/-- Characterisation of exists_data_row: the selected column of the last
matching row, if any. -/
theorem exists_data_row_eq_getLast (table : List Row)
    (column_name column_filter1 value1 column_filter2 value2 : String) :
    exists_data_row table column_name column_filter1 value1 column_filter2 value2
      = (pg_fetchall_select table column_filter1 value1 column_filter2 value2).getLast?.map
          (fun r => r column_name) := by
  unfold exists_data_row
  rw [exists_row_loop_from_eq]
  cases (pg_fetchall_select table column_filter1 value1 column_filter2 value2).getLast? <;> rfl

/-- Characterisation of validate_transaction: the selected column of the last
matching row, if any. -/
theorem validate_transaction_eq_getLast (table : List Row)
    (column_name column_filter1 value1 column_filter2 value2 column_filter3 value3 : String) :
    validate_transaction table column_name column_filter1 value1 column_filter2 value2
        column_filter3 value3
      = (pg_fetchall_select3 table column_filter1 value1 column_filter2 value2 column_filter3
          value3).getLast?.map (fun r => r column_name) := by
  unfold validate_transaction
  rw [exists_row_loop_from_eq]
  cases (pg_fetchall_select3 table column_filter1 value1 column_filter2 value2 column_filter3
      value3).getLast? <;> rfl

/-- C9: the address formatter composes its result exactly as
street no. external, col. suburb, Cp. zip, city, country, and on the inputs
(Reforma, 123, Centro, 06000, CDMX, Mexico) it returns
Reforma no. 123, col. Centro, Cp. 06000, CDMX, Mexico. -/
theorem C9_format_store_address :
    (∀ street external suburb zipc city country : String,
      format_store_address street external suburb zipc city country
        = street ++ " no. " ++ external ++ ", col. " ++ suburb ++ ", Cp. " ++ zipc ++ ", " ++
            city ++ ", " ++ country)
    ∧ format_store_address "Reforma" "123" "Centro" "06000" "CDMX" "Mexico"
        = "Reforma no. 123, col. Centro, Cp. 06000, CDMX, Mexico" :=
  ⟨fun _ _ _ _ _ _ => rfl, rfl⟩

/-- C10: scrub returns exactly the subsequence of alphanumeric characters of
its input in their original order; it is idempotent, and it is the identity
on strings that are entirely alphanumeric. -/
theorem C10_scrub_filter (s : String) :
    (scrub s).toList = s.toList.filter py_isalnum
    ∧ List.Sublist (scrub s).toList s.toList
    ∧ (∀ c ∈ (scrub s).toList, py_isalnum c = true)
    ∧ scrub (scrub s) = scrub s
    ∧ ((∀ c ∈ s.toList, py_isalnum c = true) → scrub s = s) := by
  refine ⟨rfl, ?_, ?_, ?_, ?_⟩
  · exact List.filter_sublist s.toList
  · intro c hc
    exact List.of_mem_filter hc
  · have h2 : (s.toList.filter py_isalnum).filter py_isalnum = s.toList.filter py_isalnum :=
      List.filter_eq_self.mpr (fun c hc => List.of_mem_filter hc)
    show String.mk ((s.toList.filter py_isalnum).filter py_isalnum)
        = String.mk (s.toList.filter py_isalnum)
    exact congrArg String.mk h2
  · intro h
    have h2 : s.toList.filter py_isalnum = s.toList := List.filter_eq_self.mpr h
    show String.mk (s.toList.filter py_isalnum) = s
    calc String.mk (s.toList.filter py_isalnum) = String.mk s.toList := congrArg String.mk h2
      _ = s := by cases s; rfl

/-- C10 witness: scrub at the concrete all-alphanumeric input abc123. -/
theorem C10_scrub_filter_witness : scrub "abc123" = "abc123" :=
  (C10_scrub_filter "abc123").2.2.2.2 (by decide)

/-- Helper: a row delivered by getLast? of a list is a member of it. -/
theorem mem_of_getLast_eq_some {α : Type} {l : List α} {a : α} (h : l.getLast? = some a) :
    a ∈ l := by
  obtain ⟨hne, hEq⟩ := List.mem_getLast?_eq_getLast (Option.mem_def.mpr h)
  rw [hEq]
  exact List.getLast_mem hne

/-- Helper: every row matching the (uuid_van, plates_van) lookup filter has
the looked-up uuid in its uuid_van column. -/
theorem mem_fetchall_uuid_eq {table : List Row} {uuid_van plates_van : String} {r : Row}
    (hr : r ∈ pg_fetchall_select table "uuid_van" uuid_van "plates_van" plates_van) :
    r "uuid_van" = uuid_van := by
  have h1 := (List.mem_filter.mp hr).2
  exact eq_of_beq ((Bool.and_eq_true _ _).mp h1).1

/-- C2 counterexample: with two rows matching the filters, carrying values A
then B in the selected column, exists_data_row returns B, the value of the
last matching row, not the claimed first-row value A. -/
theorem C2_counterexample :
    exists_data_row
        [fun k => if k == "vc" then "A" else "x", fun k => if k == "vc" then "B" else "x"]
        "vc" "f1" "x" "f2" "x" = some "B"
    ∧ exists_data_row_claim
        [fun k => if k == "vc" then "A" else "x", fun k => if k == "vc" then "B" else "x"]
        "vc" "f1" "x" "f2" "x" = some "A"
    ∧ (some "B" : Option String) ≠ some "A" :=
  ⟨by decide, by decide, by decide⟩

/-- C2 (amended): exists_data_row and validate_transaction return the
selected column's value taken from the LAST matching row of the lookup
result, and return None when no row matches the filters. -/
theorem C2_exists_last_row_amended (table : List Row)
    (column_name f1 v1 f2 v2 f3 v3 : String) :
    exists_data_row table column_name f1 v1 f2 v2
        = (pg_fetchall_select table f1 v1 f2 v2).getLast?.map (fun r => r column_name)
    ∧ (pg_fetchall_select table f1 v1 f2 v2 = [] →
        exists_data_row table column_name f1 v1 f2 v2 = none)
    ∧ validate_transaction table column_name f1 v1 f2 v2 f3 v3
        = (pg_fetchall_select3 table f1 v1 f2 v2 f3 v3).getLast?.map (fun r => r column_name)
    ∧ (pg_fetchall_select3 table f1 v1 f2 v2 f3 v3 = [] →
        validate_transaction table column_name f1 v1 f2 v2 f3 v3 = none) := by
  refine ⟨exists_data_row_eq_getLast table column_name f1 v1 f2 v2, ?_,
    validate_transaction_eq_getLast table column_name f1 v1 f2 v2 f3 v3, ?_⟩
  · intro h
    rw [exists_data_row_eq_getLast, h]
    rfl
  · intro h
    rw [validate_transaction_eq_getLast, h]
    rfl

/-- C2 witness: on an empty table both existence checks return None. -/
theorem C2_exists_last_row_amended_witness :
    exists_data_row ([] : List Row) "vc" "f1" "x" "f2" "y" = none
    ∧ validate_transaction ([] : List Row) "vc" "f1" "x" "f2" "y" "f3" "z" = none := by
  have h := C2_exists_last_row_amended ([] : List Row) "vc" "f1" "x" "f2" "y" "f3" "z"
  exact ⟨h.2.1 rfl, h.2.2.2 rfl⟩

/-- C1 counterexample: a table holding exactly one row that matches the
(uuid_van, plates_van) lookup (with an empty uuid value) makes the upsert run
the INSERT branch even though a matching row is found, because the looked-up
empty string is falsy in Python. -/
theorem C1_counterexample :
    manage_van_vehicle_data [fun k => if k == "plates_van" then "p" else ""] "" "p"
        "UPDATED" "INSERTED" = "INSERTED"
    ∧ (pg_fetchall_select [fun k => if k == "plates_van" then "p" else ""]
        "uuid_van" "" "plates_van" "p").length = 1
    ∧ ("UPDATED" : String) ≠ "INSERTED" :=
  ⟨by decide, by decide, by decide⟩

/-- C1 (amended): the upsert performs the (uuid_van, plates_van) existence
lookup and branches on the Python truthiness of its result, returning the
result of whichever branch ran: with a non-empty uuid, a matching row routes
to the update call and an absent row routes to the insert call; with an empty
uuid the insert call runs even when a matching row is found. -/
theorem C1_upsert_dispatch_amended {α : Type} (table : List Row) (uuid_van plates_van : String)
    (update_result insert_result : α) :
    (uuid_van ≠ "" →
      pg_fetchall_select table "uuid_van" uuid_van "plates_van" plates_van ≠ [] →
      manage_van_vehicle_data table uuid_van plates_van update_result insert_result
        = update_result)
    ∧ (pg_fetchall_select table "uuid_van" uuid_van "plates_van" plates_van = [] →
      manage_van_vehicle_data table uuid_van plates_van update_result insert_result
        = insert_result)
    ∧ (uuid_van = "" →
      manage_van_vehicle_data table uuid_van plates_van update_result insert_result
        = insert_result) := by
  refine ⟨?_, ?_, ?_⟩
  · intro hne hL
    unfold manage_van_vehicle_data
    rw [exists_data_row_eq_getLast]
    cases hLast : (pg_fetchall_select table "uuid_van" uuid_van "plates_van" plates_van).getLast?
      with
    | none => exact absurd (List.getLast?_eq_none_iff.mp hLast) hL
    | some r =>
      have hru : r "uuid_van" = uuid_van :=
        mem_fetchall_uuid_eq (mem_of_getLast_eq_some hLast)
      have hfalse : (uuid_van == "") = false := beq_eq_false_iff_ne.mpr hne
      simp [py_truthy, hru, hfalse]
  · intro hL
    unfold manage_van_vehicle_data
    rw [exists_data_row_eq_getLast, hL]
    rfl
  · intro he
    unfold manage_van_vehicle_data
    rw [exists_data_row_eq_getLast]
    cases hLast : (pg_fetchall_select table "uuid_van" uuid_van "plates_van" plates_van).getLast?
      with
    | none => rfl
    | some r =>
      have hru : r "uuid_van" = uuid_van :=
        mem_fetchall_uuid_eq (mem_of_getLast_eq_some hLast)
      simp [py_truthy, hru, he]

/-- C1 witness: with a non-empty uuid, a matching row routes to the update
result and an empty table routes to the insert result. -/
theorem C1_upsert_dispatch_amended_witness :
    manage_van_vehicle_data
        [fun k => if k == "uuid_van" then "u1" else if k == "plates_van" then "p1" else ""]
        "u1" "p1" "UPDATED" "INSERTED" = "UPDATED"
    ∧ manage_van_vehicle_data ([] : List Row) "u1" "p1" "UPDATED" "INSERTED" = "INSERTED" := by
  constructor
  · refine (C1_upsert_dispatch_amended
        [fun k => if k == "uuid_van" then "u1" else if k == "plates_van" then "p1" else ""]
        "u1" "p1" "UPDATED" "INSERTED").1 (by decide) ?_
    intro hnil
    have hlen : (pg_fetchall_select
        [fun k => if k == "uuid_van" then "u1" else if k == "plates_van" then "p1" else ""]
        "uuid_van" "u1" "plates_van" "p1").length = 1 := by decide
    rw [hnil] at hlen
    exact absurd hlen (by decide)
  · exact (C1_upsert_dispatch_amended ([] : List Row) "u1" "p1" "UPDATED" "INSERTED").2.1 rfl

/-- Exceptions raised by the layer: mvc_exc.ItemNotStored, SQLAlchemyError,
psycopg2 driver errors and ValueError from datetime.strptime.  The four kinds
are distinct classes in the source; in particular a psycopg2 driver error is
not a SQLAlchemyError, and (modelled from the spec, which lists the
NotStoredError kinds separately from TransactionError, the mvc_exceptions
module not being part of the sources) ItemNotStored is not a SQLAlchemyError
either. -/
inductive PyExc where
  | itemNotStored (msg : String)
  | sqlAlchemyError (msg : String)
  | psycopgError (msg : String)
  | valueError (msg : String)
deriving DecidableEq, Repr

/-- Message attached when a write operation re-raises after a rollback
(source lines 512-514, 626-628, 696-698). -/
def sql_exception_tag (table_name error_msg : String) : String :=
  "A SQL Exception " ++ error_msg ++
    " occurred while transacting with the database on table " ++ table_name ++ "."

/-- Embedding of the shared error handler of the write and read operations
(for example source lines 509-517): except SQLAlchemyError issues
conn.rollback() and re-raises a SQLAlchemyError tagged with the table name
and the original error text.  Every other outcome, including a psycopg2
driver error raised by cursor.execute or conn.commit, passes through the
handler unchanged.  The Bool component records whether rollback ran. -/
def sqlalchemy_except_rollback {α : Type} (table_name : String) (body : Except PyExc α) :
    Except PyExc α × Bool :=
  match body with
  | Except.error (PyExc.sqlAlchemyError m) =>
      (Except.error (PyExc.sqlAlchemyError (sql_exception_tag table_name m)), true)
  | other => (other, false)

/-- Python str() of an optional lookup result: str(None) is the text None. -/
def py_str_opt (o : Option String) : String :=
  match o with
  | none => "None"
  | some s => s

/-- Python substring containment needle in haystack. -/
def py_in_str (needle haystack : String) : Bool :=
  (List.range (haystack.length + 1)).any
    (fun i => (haystack.toList.drop i).take needle.toList.length == needle.toList)

/-- Payload dictionary built by delete_store_data. -/
structure StoreDeletePayload where
  IdStore : String
  CodeStore : String
  Message : String
deriving DecidableEq, Repr

/-- Payload assigned right after the DELETE commits (source lines 664-668);
it is overwritten by both branches of the post-check, so it can never be
returned. -/
def store_deleted_payload (store_id store_code : String) : StoreDeletePayload :=
  ⟨store_id, store_code, "Store Deleted Successful"⟩

/-- Payload assigned when the post-delete lookup still reports the row
(source lines 677-681). -/
def store_not_deleted_payload (store_id store_code : String) : StoreDeletePayload :=
  ⟨store_id, store_code, "Store not deleted"⟩

/-- Message of the ItemNotStored raised by delete_store_data and the van
selects. -/
def item_not_stored_msg (key table_name : String) : String :=
  "Cannot read " ++ key ++ " because it is not stored in table " ++ table_name

/-- Embedding of the post-delete check of delete_store_data (source lines
670-691): if str(store_id) occurs in str(lookup result) the Store-not-deleted
payload is returned, otherwise ItemNotStored is raised. -/
def delete_store_postcheck (table_name store_id store_code : String)
    (row_exists : Option String) : Except PyExc StoreDeletePayload :=
  if py_in_str store_id (py_str_opt row_exists)
  then Except.ok (store_not_deleted_payload store_id store_code)
  else Except.error (PyExc.itemNotStored (item_not_stored_msg store_id table_name))

/-- Embedding of delete_store_data (source lines 636-702): DELETE the rows
matching (id_store, store_code), commit, run the exists_data_row lookup on
the resulting table, then the post-check; the whole body sits inside the
except-SQLAlchemyError handler.  Returns the post-delete table and the
outcome. -/
def delete_store_data (table_name : String) (table : List Row) (store_id store_code : String) :
    List Row × Except PyExc StoreDeletePayload :=
  let table1 :=
    table.filter (fun r => !(r "id_store" == store_id && r "store_code" == store_code))
  let row_exists := exists_data_row table1 "id_store" "id_store" store_id "store_code" store_code
  (table1,
    (sqlalchemy_except_rollback table_name
      (delete_store_postcheck table_name store_id store_code row_exists)).1)

/-- C7 (code-bug evidence): the write operations guard execute and commit
with except SQLAlchemyError, but those calls raise psycopg2 driver errors,
which are not SQLAlchemyError instances; such an error passes the handler
with no rollback (second component false) and without the table-tagged
message, contradicting the claim; only an error that already is a
SQLAlchemyError receives the rollback and the tagged re-raise the claim
describes. -/
theorem C7_driver_error_not_caught :
    sqlalchemy_except_rollback "cargamos.store_api"
        (Except.error (PyExc.psycopgError "duplicate key") : Except PyExc Unit)
      = (Except.error (PyExc.psycopgError "duplicate key"), false)
    ∧ sqlalchemy_except_rollback "cargamos.store_api"
        (Except.error (PyExc.sqlAlchemyError "boom") : Except PyExc Unit)
      = (Except.error (PyExc.sqlAlchemyError
          (sql_exception_tag "cargamos.store_api" "boom")), true) :=
  ⟨rfl, rfl⟩

deriving instance DecidableEq for Except

/-- C4 counterexample: deleting the pair (10, c7) from a table where it
matches no stored row raises ItemNotStored instead of returning the claimed
not-deleted payload. -/
theorem C4_counterexample :
    (delete_store_data "cargamos.store_api" ([] : List Row) "10" "c7").2
      = Except.error (PyExc.itemNotStored
          "Cannot read 10 because it is not stored in table cargamos.store_api")
    ∧ (delete_store_data "cargamos.store_api" ([] : List Row) "10" "c7").2
      ≠ Except.ok (store_not_deleted_payload "10" "c7") :=
  ⟨by decide, by decide⟩

/-- C4 (amended): only when the post-delete lookup still reports the deleted
id does the store delete return the typed not-deleted payload, which is
distinct from the successful-deletion payload, without raising; in every
other case, including every call whose (id_store, store_code) pair matches no
stored row, it raises ItemNotStored (the id test being the Python substring
test str(id) in str(lookup result)). -/
theorem C4_delete_outcomes_amended (table_name : String) (table : List Row)
    (store_id store_code : String) (row_exists : Option String) :
    (py_in_str store_id (py_str_opt row_exists) = true →
      delete_store_postcheck table_name store_id store_code row_exists
        = Except.ok (store_not_deleted_payload store_id store_code))
    ∧ (py_in_str store_id "None" = false →
      (delete_store_data table_name table store_id store_code).2
        = Except.error (PyExc.itemNotStored (item_not_stored_msg store_id table_name)))
    ∧ store_not_deleted_payload store_id store_code
        ≠ store_deleted_payload store_id store_code := by
  refine ⟨?_, ?_, ?_⟩
  · intro h
    simp [delete_store_postcheck, h]
  · intro h
    have hsel : pg_fetchall_select
        (table.filter (fun r => !(r "id_store" == store_id && r "store_code" == store_code)))
        "id_store" store_id "store_code" store_code = [] := by
      unfold pg_fetchall_select
      rw [List.filter_filter]
      apply List.filter_eq_nil_iff.mpr
      intro a _
      simp
    have hex : exists_data_row
        (table.filter (fun r => !(r "id_store" == store_id && r "store_code" == store_code)))
        "id_store" "id_store" store_id "store_code" store_code = none := by
      rw [exists_data_row_eq_getLast, hsel]
      rfl
    simp only [delete_store_data, hex]
    simp [delete_store_postcheck, sqlalchemy_except_rollback, py_str_opt, h]
  · intro h
    have h2 := congrArg StoreDeletePayload.Message h
    simp [store_not_deleted_payload, store_deleted_payload] at h2

/-- C4 witness: the not-deleted branch at a lookup still reporting id 10, and
the raising branch at the empty table. -/
theorem C4_delete_outcomes_amended_witness :
    delete_store_postcheck "cargamos.store_api" "10" "c7" (some "10")
      = Except.ok (store_not_deleted_payload "10" "c7")
    ∧ (delete_store_data "cargamos.store_api" ([] : List Row) "10" "c7").2
      = Except.error (PyExc.itemNotStored (item_not_stored_msg "10" "cargamos.store_api")) := by
  have h := C4_delete_outcomes_amended "cargamos.store_api" ([] : List Row) "10" "c7" (some "10")
  exact ⟨h.1 (by decide), h.2.1 (by decide)⟩

/-- Row of the van table, with the seven columns projected by the van
selects; timestamps are the raw strings handed to datetime.strptime. -/
structure VanRow where
  uuid_van : String
  plates_van : String
  economic_number_van : String
  seats_van : String
  created_at : String
  status_van : String
  last_update_date : String
deriving DecidableEq, Repr

/-- Result of datetime.strptime with format %Y-%m-%d %H:%M:%S. -/
structure PyDateTime where
  year : Nat
  month : Nat
  day : Nat
  hour : Nat
  minute : Nat
  second : Nat
deriving DecidableEq, Repr

/-- Embedding of datetime.strptime(s, %Y-%m-%d %H:%M:%S): parse the fixed
date-space-time shape, None standing for the ValueError raise. -/
def strptime_ymd_hms (s : String) : Option PyDateTime :=
  match s.splitOn " " with
  | [d, t] =>
    match d.splitOn "-", t.splitOn ":" with
    | [y, mo, da], [h, mi, se] =>
      match y.toNat?, mo.toNat?, da.toNat?, h.toNat?, mi.toNat?, se.toNat? with
      | some yn, some mon, some dan, some hn, some minn, some sn =>
        if 1 ≤ mon && mon ≤ 12 && 1 ≤ dan && dan ≤ 31 && hn ≤ 23 && minn ≤ 59 && sn ≤ 61
        then some ⟨yn, mon, dan, hn, minn, sn⟩
        else none
      | _, _, _, _, _, _ => none
    | _, _ => none
  | _ => none

/-- Dictionary appended per visited row by the van selects (source lines
778-788). -/
structure VanVehicleJson where
  UUID : String
  Plate : String
  EconomicNumber : String
  SeatsNumber : String
  Status : String
  CreationDate : PyDateTime
  LastUpdateDate : PyDateTime
deriving DecidableEq, Repr

/-- Mapping of one fetched row to its output dictionary, parsing the two
timestamp columns. -/
def van_row_to_json (r : VanRow) : Option VanVehicleJson :=
  match strptime_ymd_hms r.created_at, strptime_ymd_hms r.last_update_date with
  | some fecha_creacion, some fecha_actualizacion =>
      some ⟨r.uuid_van, r.plates_van, r.economic_number_van, r.seats_van, r.status_van,
        fecha_creacion, fecha_actualizacion⟩
  | _, _ => none

/-- Loop of the van selects (source lines 755-795): each non-None row is
mapped and appended; a None row raises SQLAlchemyError; a failing strptime
raises ValueError. -/
def select_van_loop (table_name : String) (rows : List (Option VanRow)) :
    Except PyExc (List VanVehicleJson) :=
  rows.foldlM
    (fun acc vd =>
      match vd with
      | some r =>
        match van_row_to_json r with
        | some j => Except.ok (acc ++ [j])
        | none =>
            Except.error (PyExc.valueError ("time data does not match format " ++ r.created_at))
      | none =>
        Except.error (PyExc.sqlAlchemyError
          ("Cannot read data because it is not stored in table " ++ table_name)))
    []

/-- Embedding of select_van_by_uuid (source lines 719-817) over the
cursor.fetchall() outcome: a None result raises ItemNotStored, a present
result runs the row loop; the body sits inside the except-SQLAlchemyError
handler. -/
def select_van_by_uuid_run (table_name uuid_van : String)
    (result : Option (List (Option VanRow))) : Except PyExc (List VanVehicleJson) :=
  (sqlalchemy_except_rollback table_name
    (match result with
     | some rows => select_van_loop table_name rows
     | none => Except.error (PyExc.itemNotStored (item_not_stored_msg uuid_van table_name)))).1

/-- Embedding of select_van_by_status (source lines 821-919) over the
cursor.fetchall() outcome. -/
def select_van_by_status_run (table_name status_van : String)
    (result : Option (List (Option VanRow))) : Except PyExc (List VanVehicleJson) :=
  (sqlalchemy_except_rollback table_name
    (match result with
     | some rows => select_van_loop table_name rows
     | none => Except.error (PyExc.itemNotStored (item_not_stored_msg status_van table_name)))).1

/-- Run of select_van_by_uuid against a table: fetchall of the one-filter
query is the present list of matching rows. -/
def select_van_by_uuid (table : List VanRow) (table_name uuid_van : String) :
    Except PyExc (List VanVehicleJson) :=
  select_van_by_uuid_run table_name uuid_van
    (some ((table.filter (fun r => r.uuid_van == uuid_van)).map some))

/-- Run of select_van_by_status against a table. -/
def select_van_by_status (table : List VanRow) (table_name status_van : String) :
    Except PyExc (List VanVehicleJson) :=
  select_van_by_status_run table_name status_van
    (some ((table.filter (fun r => r.status_van == status_van)).map some))

/-- C3: for the two van selects a present-but-empty result set yields the
successful empty list while an absent (None) cursor result raises
ItemNotStored; in particular a status matching no stored row returns the
empty list rather than raising, and likewise for an unmatched uuid. -/
theorem C3_select_empty_vs_null (table : List VanRow)
    (table_name uuid_van status_van : String) :
    select_van_by_uuid_run table_name uuid_van (some []) = Except.ok []
    ∧ select_van_by_uuid_run table_name uuid_van none
        = Except.error (PyExc.itemNotStored (item_not_stored_msg uuid_van table_name))
    ∧ select_van_by_status_run table_name status_van (some []) = Except.ok []
    ∧ select_van_by_status_run table_name status_van none
        = Except.error (PyExc.itemNotStored (item_not_stored_msg status_van table_name))
    ∧ ((∀ r ∈ table, ¬ r.status_van = status_van) →
        select_van_by_status table table_name status_van = Except.ok [])
    ∧ ((∀ r ∈ table, ¬ r.uuid_van = uuid_van) →
        select_van_by_uuid table table_name uuid_van = Except.ok []) := by
  refine ⟨rfl, rfl, rfl, rfl, ?_, ?_⟩
  · intro h
    have hf : table.filter (fun r => r.status_van == status_van) = [] :=
      List.filter_eq_nil_iff.mpr (fun a ha => by simpa using h a ha)
    unfold select_van_by_status
    rw [hf]
    rfl
  · intro h
    have hf : table.filter (fun r => r.uuid_van == uuid_van) = [] :=
      List.filter_eq_nil_iff.mpr (fun a ha => by simpa using h a ha)
    unfold select_van_by_uuid
    rw [hf]
    rfl

/-- C3 witness: a one-row table with status active yields the empty list,
not an error, when queried for status inactive or for an unmatched uuid. -/
theorem C3_select_empty_vs_null_witness :
    select_van_by_status
        [⟨"u1", "p1", "e1", "10", "2021-01-01 00:00:00", "active", "2021-01-02 00:00:00"⟩]
        "urbvan.van_api" "inactive" = Except.ok []
    ∧ select_van_by_uuid
        [⟨"u1", "p1", "e1", "10", "2021-01-01 00:00:00", "active", "2021-01-02 00:00:00"⟩]
        "urbvan.van_api" "u2" = Except.ok [] := by
  have h := C3_select_empty_vs_null
    [⟨"u1", "p1", "e1", "10", "2021-01-01 00:00:00", "active", "2021-01-02 00:00:00"⟩]
    "urbvan.van_api" "u2" "inactive"
  exact ⟨h.2.2.2.2.1 (by decide), h.2.2.2.2.2 (by decide)⟩

/-- Row of the user-auth table (columns user_id, username, password,
password_hash, last_update_date). -/
structure UserRow where
  user_id : String
  username : String
  password : String
  password_hash : String
  last_update_date : Option String
deriving DecidableEq, Repr

/-- Embedding of validate_user_exists (source lines 968-990): the boolean
query SELECT EXISTS(SELECT 1 FROM table WHERE username = name LIMIT 1),
filtering on the single username column; the one-element tuple returned by
fetchone() is folded to its boolean component. -/
def validate_user_exists (table : List UserRow) (user_name : String) : Bool :=
  table.any (fun u => u.username == user_name)

/-- Embedding of update_user_password_hashed (source lines 994-1021):
UPDATE table SET password_hash = hash, last_update_date = NOW() WHERE
username = name; the parameter now stands for the database clock NOW(). -/
def update_user_password_hashed (table : List UserRow)
    (user_name password_hash now : String) : List UserRow :=
  table.map (fun u =>
    if u.username == user_name
    then ⟨u.user_id, u.username, u.password, password_hash, some now⟩
    else u)

/-- Embedding of insert_user_authenticated (source lines 1024-1055): INSERT
of (user_id, username, password, password_hash); last_update_date is not in
the inserted column list, so the new row carries none. -/
def insert_user_authenticated (table : List UserRow)
    (user_id user_name user_password password_hash : String) : List UserRow :=
  table ++ [⟨user_id, user_name, user_password, password_hash, none⟩]

/-- Embedding of UsersAuth.manage_user_authentication (source lines
940-964): branch on validate_user_exists into the password update or the
credential insert. -/
def manage_user_authentication (table : List UserRow)
    (user_id user_name user_password password_hash now : String) : List UserRow :=
  if validate_user_exists table user_name
  then update_user_password_hashed table user_name password_hash now
  else insert_user_authenticated table user_id user_name user_password password_hash

/-- C6: authenticate-or-register decides existence by the single-column
boolean EXISTS lookup on userName alone (true exactly when some stored row
carries that name); when the name exists it runs the password update, which
sets password_hash and last_update_date on the matching rows and creates no
new row (length preserved); when it is absent it inserts exactly one new
credential row. -/
theorem C6_user_auth_dispatch (table : List UserRow)
    (user_id user_name user_password password_hash now : String) :
    (validate_user_exists table user_name = true ↔ ∃ u ∈ table, u.username = user_name)
    ∧ (validate_user_exists table user_name = true →
        manage_user_authentication table user_id user_name user_password password_hash now
          = update_user_password_hashed table user_name password_hash now
        ∧ (manage_user_authentication table user_id user_name user_password password_hash
            now).length = table.length)
    ∧ (validate_user_exists table user_name = false →
        manage_user_authentication table user_id user_name user_password password_hash now
          = table ++ [⟨user_id, user_name, user_password, password_hash, none⟩])
    ∧ (∀ u ∈ table,
        (if u.username == user_name
         then (⟨u.user_id, u.username, u.password, password_hash, some now⟩ : UserRow)
         else u) ∈ update_user_password_hashed table user_name password_hash now) := by
  refine ⟨?_, ?_, ?_, ?_⟩
  · simp [validate_user_exists, List.any_eq_true]
  · intro h
    refine ⟨by simp [manage_user_authentication, h], ?_⟩
    simp [manage_user_authentication, h, update_user_password_hashed]
  · intro h
    simp [manage_user_authentication, h, insert_user_authenticated]
  · intro u hu
    exact List.mem_map_of_mem _ hu

/-- C6 witness: re-registering the existing name jm rewrites its hash in
place, while the unseen name ana appends exactly one credential row. -/
theorem C6_user_auth_dispatch_witness :
    manage_user_authentication [⟨"1", "jm", "pw", "h1", none⟩] "2" "jm" "pw2" "h2"
        "2021-01-01 00:00:00"
      = [⟨"1", "jm", "pw", "h2", some "2021-01-01 00:00:00"⟩]
    ∧ manage_user_authentication [⟨"1", "jm", "pw", "h1", none⟩] "2" "ana" "pw2" "h2"
        "2021-01-01 00:00:00"
      = [⟨"1", "jm", "pw", "h1", none⟩, ⟨"2", "ana", "pw2", "h2", none⟩]
    ∧ (∃ u ∈ [(⟨"1", "jm", "pw", "h1", none⟩ : UserRow)], u.username = "jm") := by
  have h1 := C6_user_auth_dispatch [⟨"1", "jm", "pw", "h1", none⟩] "2" "jm" "pw2" "h2"
    "2021-01-01 00:00:00"
  have h2 := C6_user_auth_dispatch [⟨"1", "jm", "pw", "h1", none⟩] "2" "ana" "pw2" "h2"
    "2021-01-01 00:00:00"
  refine ⟨?_, ?_, h1.1.mp (by decide)⟩
  · rw [(h1.2.1 (by decide)).1]
    decide
  · rw [h2.2.2.1 (by decide)]
    rfl

/-- Statements issued on the insert path, for tracing which SQL runs. -/
inductive DbOp where
  | selectNow
  | nextvalEcoNum
  | insertRow (table : String) (columns : List String)
  | selectWhere (table : String) (column : String) (filters : List (String × String))
deriving DecidableEq, Repr

/-- Column list of the INSERT built by insert_new_store (source lines
451-463); the format(table_name) call has no placeholder to fill, so the
statement always inserts into the hard-coded cargamos.store_api. -/
def insert_new_store_sql_columns : List String :=
  ["id_store", "store_name", "store_code", "store_street_address", "store_external_number",
   "store_suburb_address", "store_city_address", "store_country_address",
   "store_zippostal_code", "store_min_inventory", "creation_date", "last_update_date"]

/-- Statement trace of get_nextval_economic_number_van (source lines
214-246): exactly the sequence query SELECT nextval(urbvan.eco_num_van). -/
def get_nextval_economic_number_van_ops : List DbOp :=
  [DbOp.nextvalEcoNum]

/-- Statement trace of insert_new_store (source lines 414-518), the function
the Van upsert runs on its insert branch: two get_datenow_from_db calls
(SELECT now()), the INSERT, and the validate_transaction lookup on
(id_store, store_code, store_name).  No other statement runs on this
path. -/
def insert_new_store_ops (table_name store_id store_code store_name : String) : List DbOp :=
  [DbOp.selectNow, DbOp.selectNow,
   DbOp.insertRow "cargamos.store_api" insert_new_store_sql_columns,
   DbOp.selectWhere table_name "id_store"
     [("id_store", store_id), ("store_code", store_code), ("store_name", store_name)]]

/-- C5 (code-bug evidence): the insert path run by the Van upsert executes
no nextval statement and its INSERT carries no economic-number column; the
sequence query exists only in the never-invoked helper
get_nextval_economic_number_van, whose own docstring says it is for creating
a new Van register. -/
theorem C5_insert_no_nextval (table_name store_id store_code store_name : String) :
    DbOp.nextvalEcoNum ∉ insert_new_store_ops table_name store_id store_code store_name
    ∧ "economic_number_van" ∉ insert_new_store_sql_columns
    ∧ "economic_number" ∉ insert_new_store_sql_columns
    ∧ get_nextval_economic_number_van_ops = [DbOp.nextvalEcoNum] := by
  refine ⟨?_, by decide, by decide, rfl⟩
  intro hmem
  simp [insert_new_store_ops] at hmem

/-- Connection and cursor lifecycle events; the Nat identifies the
connection (0 is the operation's own, higher numbers belong to connections
opened by nested helper calls). -/
inductive REv where
  | openConn (c : Nat)
  | createCursor (c : Nat)
  | execute (c : Nat)
  | commit (c : Nat)
  | rollback (c : Nat)
  | closeCursor (c : Nat)
  | closeConn (c : Nat)
deriving DecidableEq, Repr

/-- Resource shape shared by every store/van operation (for example source
lines 266-299): open the connection, run the body, roll back on a caught
error, and close the connection in the finally block. -/
def try_except_finally (c : Nat) (body : List REv) (failed : Bool) : List REv :=
  [REv.openConn c] ++ body ++ (if failed then [REv.rollback c] else []) ++ [REv.closeConn c]

/-- Resource trace of get_datenow_from_db (source lines 174-211). -/
def get_datenow_from_db_resources (c : Nat) (failed : Bool) : List REv :=
  try_except_finally c [REv.createCursor c, REv.execute c, REv.closeCursor c] failed

/-- Resource trace of exists_data_row (source lines 249-301). -/
def exists_data_row_resources (c : Nat) (failed : Bool) : List REv :=
  try_except_finally c [REv.createCursor c, REv.execute c, REv.closeCursor c] failed

/-- Resource trace of validate_transaction (source lines 304-360). -/
def validate_transaction_resources (c : Nat) (failed : Bool) : List REv :=
  try_except_finally c [REv.createCursor c, REv.execute c, REv.closeCursor c] failed

/-- Resource trace of insert_new_store (source lines 414-518): its own
cursor, two nested get_datenow_from_db calls on fresh connections, the
INSERT with commit, and the nested validate_transaction lookup. -/
def insert_new_store_resources (failed : Bool) : List REv :=
  try_except_finally 0
    ([REv.createCursor 0] ++ get_datenow_from_db_resources 1 false
      ++ get_datenow_from_db_resources 2 false
      ++ [REv.execute 0, REv.commit 0, REv.closeCursor 0]
      ++ validate_transaction_resources 3 false)
    failed

/-- Resource trace of update_store_data (source lines 522-632). -/
def update_store_data_resources (failed : Bool) : List REv :=
  try_except_finally 0
    ([REv.createCursor 0] ++ get_datenow_from_db_resources 1 false
      ++ [REv.execute 0, REv.commit 0, REv.closeCursor 0]
      ++ validate_transaction_resources 2 false)
    failed

/-- Resource trace of delete_store_data (source lines 636-702): the DELETE
with commit, then the nested exists_data_row lookup; the ItemNotStored raise
of the post-check shares this trace since the finally block still runs. -/
def delete_store_data_resources (failed : Bool) : List REv :=
  try_except_finally 0
    ([REv.createCursor 0, REv.execute 0, REv.commit 0, REv.closeCursor 0]
      ++ exists_data_row_resources 1 false)
    failed

/-- Resource trace of select_van_by_uuid (source lines 719-817). -/
def select_van_by_uuid_resources (failed : Bool) : List REv :=
  try_except_finally 0 [REv.createCursor 0, REv.execute 0, REv.closeCursor 0] failed

/-- Resource trace of select_van_by_status (source lines 821-919). -/
def select_van_by_status_resources (failed : Bool) : List REv :=
  try_except_finally 0 [REv.createCursor 0, REv.execute 0, REv.closeCursor 0] failed

/-- Resource trace of validate_user_exists (source lines 968-990): open,
cursor, execute, fetch, return; there is no try/finally, no close_cursor and
no disconnect_from_db call. -/
def validate_user_exists_resources : List REv :=
  [REv.openConn 0, REv.createCursor 0, REv.execute 0]

/-- Resource trace of update_user_password_hashed (source lines 994-1021):
its own connection is opened and its cursor closed, the nested
get_datenow_from_db call opens and closes connection 1, but no
disconnect_from_db runs on connection 0. -/
def update_user_password_hashed_resources : List REv :=
  [REv.openConn 0, REv.createCursor 0] ++ get_datenow_from_db_resources 1 false
    ++ [REv.execute 0, REv.commit 0, REv.closeCursor 0]

/-- Resource trace of insert_user_authenticated (source lines 1024-1055):
same shape as the password update, again with no disconnect_from_db on
connection 0. -/
def insert_user_authenticated_resources : List REv :=
  [REv.openConn 0, REv.createCursor 0] ++ get_datenow_from_db_resources 1 false
    ++ [REv.execute 0, REv.commit 0, REv.closeCursor 0]

/-- C8 counterexample: the three user-authentication operations never emit a
close event for their own connection, on any path, so not every repository
operation releases its connection. -/
theorem C8_counterexample :
    REv.closeConn 0 ∉ validate_user_exists_resources
    ∧ REv.closeConn 0 ∉ update_user_password_hashed_resources
    ∧ REv.closeConn 0 ∉ insert_user_authenticated_resources :=
  ⟨by decide, by decide, by decide⟩

/-- C8 (amended): every store/van repository operation closes its connection
as the final resource event on both the success and the failure path (the
finally-equivalent block of the shared try/except/finally shape), but the
three user-authentication operations never release their own connection on
any path. -/
theorem C8_connection_release_amended (c : Nat) (body : List REv) (failed : Bool) :
    (try_except_finally c body failed).getLast? = some (REv.closeConn c)
    ∧ (get_datenow_from_db_resources c failed).getLast? = some (REv.closeConn c)
    ∧ (exists_data_row_resources c failed).getLast? = some (REv.closeConn c)
    ∧ (validate_transaction_resources c failed).getLast? = some (REv.closeConn c)
    ∧ (insert_new_store_resources failed).getLast? = some (REv.closeConn 0)
    ∧ (update_store_data_resources failed).getLast? = some (REv.closeConn 0)
    ∧ (delete_store_data_resources failed).getLast? = some (REv.closeConn 0)
    ∧ (select_van_by_uuid_resources failed).getLast? = some (REv.closeConn 0)
    ∧ (select_van_by_status_resources failed).getLast? = some (REv.closeConn 0)
    ∧ REv.closeConn 0 ∉ validate_user_exists_resources
    ∧ REv.closeConn 0 ∉ update_user_password_hashed_resources
    ∧ REv.closeConn 0 ∉ insert_user_authenticated_resources := by
  have key : ∀ (c2 : Nat) (b : List REv) (f : Bool),
      (try_except_finally c2 b f).getLast? = some (REv.closeConn c2) := by
    intro c2 b f
    exact List.getLast?_concat _
  exact ⟨key c body failed, key c _ failed, key c _ failed, key c _ failed, key 0 _ failed,
    key 0 _ failed, key 0 _ failed, key 0 _ failed, key 0 _ failed,
    by decide, by decide, by decide⟩
